import Mathlib

/-!
Shallow embedding of the DIDComm Mediator Coordination subsystem of this
repository (packages/did-comm: `coordinate-mediation-message-handler`, and the
`data-store` DataStore plugin), together with theorems checking the
natural-language specification against it.

The embedding follows the TypeScript source:
* `CoordinateMediationMediatorMessageHandler` (handleMediateRequest,
  handleRecipientUpdate, handle) and
  `CoordinateMediationRecipientMessageHandler` (handle) from
  `packages/did-comm/src/protocols/coordinate-mediation-message-handler.ts`;
* the message builders `createMediateRequestMessage`,
  `createMediateGrantMessage`, `createRecipientUpdateMessage`;
* the `DataStore` plugin constructor from `packages/data-store/src/data-store.ts`.

Stateful agent capabilities (data store, DID manager) become explicit state
passing on `AgentState`; `async`/`await` with exceptions becomes
`Except Err`; the uuid generator `v4()` and `new Date().toISOString()`
become explicit `freshId`/`now` arguments; the opaque packing capability
`packDIDCommMessage` becomes a function argument `pack`.
-/

deriving instance DecidableEq for Except

namespace Veramo

/-- JS truthiness for an optional string field: `undefined`, `null` and the
empty string are falsy (`!from` in the source). -/
def truthy : Option String → Bool
  | none => false
  | some s => s ≠ ""

/-- A thrown `Error('kind: message')`: the repository's error strings start
with a taxonomy kind (`invalid_argument`, `not_found`, ...) followed by a
colon and the description; modelled structurally as the pair. -/
structure Err where
  kind : String
  msg : String
deriving DecidableEq, Repr

/-- MediationPolicies from core-types: 'ALLOW' | 'DENY'. -/
inductive MediationPolicy
  | ALLOW
  | DENY
deriving DecidableEq, Repr

/-- MediationStatus from core-types: 'GRANTED' | 'DENIED'. -/
inductive MediationStatus
  | GRANTED
  | DENIED
deriving DecidableEq, Repr

/-- Update action: 'add' | 'remove'. -/
inductive UpdateAction
  | add
  | remove
deriving DecidableEq, Repr

/-- interface Update \x7b recipient_did: string; action: 'add' | 'remove' \x7d -/
structure Update where
  recipient_did : String
  action : UpdateAction
deriving DecidableEq, Repr

/-- result field of UpdateResult: 'success' | 'no_change' | 'client_error' | 'server_error'. -/
inductive UpdateOutcome
  | success
  | no_change
  | client_error
  | server_error
deriving DecidableEq, Repr

/-- interface UpdateResult extends Update \x7b result: ... \x7d -/
structure UpdateResult extends Update where
  result : UpdateOutcome
deriving DecidableEq, Repr

/-- An element of a serviceEndpoint array: either a plain string or an object
\x7b uri: ... \x7d (the grant handler stores objects). JS `===` between an object
and a string is always false, which this representation keeps visible. -/
inductive EndpointEntry
  | str (s : String)
  | uriObj (uri : String)
deriving DecidableEq, Repr

/-- A serviceEndpoint value: a plain string or an array of entries. -/
inductive ServiceEndpoint
  | str (s : String)
  | arr (entries : List EndpointEntry)
deriving DecidableEq, Repr

/-- A DID document service entry as stored by the DID manager. -/
structure Service where
  id : String
  type : String
  serviceEndpoint : ServiceEndpoint
deriving DecidableEq, Repr

/-- Message body payloads used by this protocol. `empty` is `{}` and `null`
is JSON null; `routing` is `{ routing_did: [...] }`; `updates` is
`{ updates: [...] }`. -/
inductive Body
  | empty
  | null
  | routing (routing_did : List String)
  | updates (updates : List Update)
deriving DecidableEq, Repr

/-- Accessor for `body.routing_did`: present only on a routing body. -/
def Body.routingDid : Body → Option (List String)
  | .routing r => some r
  | _ => none

/-- The destructuring `body: { updates = [] }` from the source: reads the
updates array of an updates body, defaulting to `[]`. -/
def Body.updatesOf : Body → List Update
  | .updates us => us
  | _ => []

/-- Structured stand-in for the JSON.stringify'd values attached as message
metadata: the ReturnRouteResponse payload or the added service. -/
inductive MetaVal
  | returnRoute (id : String) (message : String) (contentType : String)
  | serviceAdded (s : Service)
deriving DecidableEq, Repr

/-- A metaData entry on a runtime Message (`addMetaData({type, value})`). -/
structure MetaData where
  type : String
  value : MetaVal
deriving DecidableEq, Repr

/-- The runtime Message object flowing through the handler chain
(message-handler `Message`): the decrypted DIDComm payload is carried in
`data`, the thread id in `threadId`. -/
structure Message where
  type : String
  from_ : Option String
  to_ : Option String
  id : String
  threadId : Option String
  data : Body
  metaData : List MetaData
deriving DecidableEq, Repr

/-- append a metaData entry (`message.addMetaData`). -/
def Message.addMetaData (m : Message) (e : MetaData) : Message :=
  { m with metaData := m.metaData ++ [e] }

/-- An IDIDCommMessage as constructed by the protocol message builders. -/
structure DIDCommMessage where
  type : String
  from_ : Option String
  to_ : Option String
  id : String
  thid : Option String
  created_time : Option String
  return_route : Option String
  body : Body
deriving DecidableEq, Repr

/-- The IMessage record persisted by `dataStoreSaveMessage`. -/
structure StoredMessage where
  id : String
  type : String
  from_ : Option String
  to_ : Option String
  threadId : Option String
  data : Body
  createdAt : Option String
deriving DecidableEq, Repr

/-- The durable agent state behind the store port and DID manager:
saved messages, mediation status records, mediation policies, the
(did, recipient_did) registry, and managed identifiers with their
DID-document services. -/
structure AgentState where
  messages : List StoredMessage
  mediations : List (String × MediationStatus)
  policies : List (String × MediationPolicy)
  recipientDids : List (String × String)
  identifiers : List (String × List Service)
deriving DecidableEq, Repr

/-- dataStoreGetMessage: find a stored message by id (throws not_found when
absent; modelled as `none`). -/
def getMessage (st : AgentState) (id : String) : Option StoredMessage :=
  st.messages.find? (fun m => m.id = id)

/-- look up a stored mediation policy for a did. -/
def lookupPolicy (st : AgentState) (did : String) : Option MediationPolicy :=
  (st.policies.find? (fun p => p.1 = did)).map (fun p => p.2)

/-- didManagerGet: the services of a managed identifier, `none` when the did
is not managed (the manager throws in that case). -/
def lookupIdentifier (st : AgentState) (did : String) : Option (List Service) :=
  (st.identifiers.find? (fun p => p.1 = did)).map (fun p => p.2)

/-- replace the service list of a managed identifier. -/
def setServices (st : AgentState) (did : String) (services : List Service) : AgentState :=
  { st with identifiers :=
      st.identifiers.map (fun p => if p.1 = did then (p.1, services) else p) }

/-- Message type URIs (enum CoordinateMediation in the source). -/
def MEDIATE_REQUEST : String := "https://didcomm.org/coordinate-mediation/3.0/mediate-request"

/-- mediate-grant message type URI. -/
def MEDIATE_GRANT : String := "https://didcomm.org/coordinate-mediation/3.0/mediate-grant"

/-- mediate-deny message type URI. -/
def MEDIATE_DENY : String := "https://didcomm.org/coordinate-mediation/3.0/mediate-deny"

/-- recipient-update message type URI. -/
def RECIPIENT_UPDATE : String := "https://didcomm.org/coordinate-mediation/3.0/recipient-update"

/-- recipient-update-response message type URI. -/
def RECIPIENT_UPDATE_RESPONSE : String :=
  "https://didcomm.org/coordinate-mediation/3.0/recipient-update-response"

/-- recipient query message type URI (enum member RECIPIENT). -/
def RECIPIENT_QUERY : String := "https://didcomm.org/coordinate-mediation/3.0/recipient"

/-- DIDCommMessageMediaType.ENCRYPTED. -/
def ENCRYPTED : String := "application/didcomm-encrypted+json"

/-- createMediateRequestMessage(recipientDidUrl, mediatorDidUrl) with the
generated uuid and timestamp made explicit. -/
def createMediateRequestMessage (recipientDidUrl mediatorDidUrl freshId now : String) :
    DIDCommMessage :=
  { type := MEDIATE_REQUEST
    from_ := some recipientDidUrl
    to_ := some mediatorDidUrl
    id := freshId
    thid := none
    created_time := some now
    return_route := none
    body := .empty }

/-- createMediateGrantMessage(recipientDidUrl, mediatorDidUrl, thid) with the
generated uuid and timestamp made explicit: body `{ routing_did: [mediatorDidUrl] }`. -/
def createMediateGrantMessage (recipientDidUrl mediatorDidUrl thid freshId now : String) :
    DIDCommMessage :=
  { type := MEDIATE_GRANT
    from_ := some mediatorDidUrl
    to_ := some recipientDidUrl
    id := freshId
    thid := some thid
    created_time := some now
    return_route := none
    body := .routing [mediatorDidUrl] }

/-- createRecipientUpdateMessage(recipientDidUrl, mediatorDidUrl, updates). -/
def createRecipientUpdateMessage (recipientDidUrl mediatorDidUrl : String)
    (updates : List Update) (freshId now : String) : DIDCommMessage :=
  { type := RECIPIENT_UPDATE
    from_ := some recipientDidUrl
    to_ := some mediatorDidUrl
    id := freshId
    thid := none
    created_time := some now
    return_route := some "all"
    body := .updates updates }

/-- CoordinateMediationMediatorMessageHandler.handleMediateRequest.
The source validates `from`/`to`, then unconditionally builds a mediate-grant
response ("Grant requests to all recipients" with a TODO for
approving/rejecting), packs it, attaches it as ReturnRouteResponse metadata,
and saves the response message in the data store. It never consults the
mediation policy store and never writes a mediation status. -/
def handleMediateRequest (pack : DIDCommMessage → String) (freshId now : String)
    (message : Message) (st : AgentState) : Except Err (Message × AgentState) :=
  if ¬ truthy message.from_ then
    .error ⟨"invalid_argument", "MediateRequest received without `from` set"⟩
  else if ¬ truthy message.to_ then
    .error ⟨"invalid_argument", "MediateRequest received without `to` set"⟩
  else
    let fromDid := message.from_.getD ""
    let toDid := message.to_.getD ""
    let response := createMediateGrantMessage fromDid toDid message.id freshId now
    let packedResponse := pack response
    let message' := message.addMetaData
      ⟨"ReturnRouteResponse", .returnRoute response.id packedResponse ENCRYPTED⟩
    let saved : StoredMessage :=
      { id := response.id
        type := response.type
        from_ := response.from_
        to_ := response.to_
        threadId := response.thid
        data := response.body
        createdAt := response.created_time }
    .ok (message', { st with messages := st.messages ++ [saved] })

/-- Modelled from the spec: `addRecipientDid(did, recipient_did) -> bool(inserted)`.
The store implementation backing `dataStoreAddRecipientDid` is absent from the
sources (the data-store methods are commented out); per the spec the pair is
inserted iff it is not already registered, and the boolean reports insertion. -/
def dataStoreAddRecipientDid (st : AgentState) (did recipient_did : String) :
    Bool × AgentState :=
  if (did, recipient_did) ∈ st.recipientDids then (false, st)
  else (true, { st with recipientDids := st.recipientDids ++ [(did, recipient_did)] })

/-- Modelled from the spec: `removeRecipientDid(did, recipient_did) -> bool(deleted)`.
The store implementation backing `dataStoreRemoveRecipientDid` is absent from
the sources; per the spec the matching pair is deleted iff present, and the
boolean reports deletion. -/
def dataStoreRemoveRecipientDid (st : AgentState) (did recipient_did : String) :
    Bool × AgentState :=
  if (did, recipient_did) ∈ st.recipientDids then
    (true, { st with recipientDids :=
      st.recipientDids.filter (fun p => ¬ (p = (did, recipient_did))) })
  else (false, st)

/-- The `updater` object from handleRecipientUpdate: dispatch on the update's
action, call the store, and map a truthy store result to 'success' and a
falsy one to 'no_change'. -/
def updaterApply (didDocDid : String) (st : AgentState) (u : Update) :
    UpdateResult × AgentState :=
  match u.action with
  | .add =>
      let (r, st') := dataStoreAddRecipientDid st didDocDid u.recipient_did
      if r then ({ u with result := .success }, st')
      else ({ u with result := .no_change }, st')
  | .remove =>
      let (r, st') := dataStoreRemoveRecipientDid st didDocDid u.recipient_did
      if r then ({ u with result := .success }, st')
      else ({ u with result := .no_change }, st')

/-- `updates.map(async (update) => await updater[update.action](didDoc, update))`,
serialized: apply each update in order, collecting the per-update results. -/
def applyUpdates (didDocDid : String) (st : AgentState) (us : List Update) :
    List UpdateResult × AgentState :=
  match us with
  | [] => ([], st)
  | u :: rest =>
      let (r, st') := updaterApply didDocDid st u
      let (rs, st'') := applyUpdates didDocDid st' rest
      (r :: rs, st'')

/-- CoordinateMediationMediatorMessageHandler.handleRecipientUpdate.
The source validates `from`/`to` and a non-empty `updates` array, fetches the
recipient's identifier via didManagerGet (not_found when unmanaged), applies
the updates through the `updater` object, discards the accumulated results
(the TODO notes the missing response construction) and returns the inbound
message unchanged. -/
def handleRecipientUpdate (message : Message) (st : AgentState) :
    Except Err (Message × AgentState) :=
  let updates := message.data.updatesOf
  if ¬ truthy message.from_ then
    .error ⟨"invalid_argument", "MediateRecipientUpdate received without `from` set"⟩
  else if ¬ truthy message.to_ then
    .error ⟨"invalid_argument", "MediateRecipientUpdate received without `to` set"⟩
  else if updates.isEmpty then
    .error ⟨"invalid_argument", "MediateRecipientUpdate received without `updates` set"⟩
  else
    let recipientDid := message.from_.getD ""
    match lookupIdentifier st recipientDid with
    | none => .error ⟨"not_found", "Identifier not found"⟩
    | some _ =>
        let (_, st') := applyUpdates recipientDid st updates
        .ok (message, st')

/-- Outcome of a handler's public `handle`: either the handler terminated the
chain returning a message, or it forwarded the message to the next handler
via `super.handle`. -/
inductive Handled
  | handled (m : Message)
  | passedOn (m : Message)
deriving DecidableEq, Repr

/-- CoordinateMediationMediatorMessageHandler.handle: dispatch on the message
type inside a try/catch; a thrown error is logged and the message falls
through to `super.handle`. Both inner handlers throw only before mutating
message or state, so the catch path leaves both unchanged. -/
def mediatorHandle (pack : DIDCommMessage → String) (freshId now : String)
    (message : Message) (st : AgentState) : Handled × AgentState :=
  if message.type = MEDIATE_REQUEST then
    match handleMediateRequest pack freshId now message st with
    | .ok (m', st') => (.handled m', st')
    | .error _ => (.passedOn message, st)
  else if message.type = RECIPIENT_UPDATE then
    match handleRecipientUpdate message st with
    | .ok (m', st') => (.handled m', st')
    | .error _ => (.passedOn message, st)
  else (.passedOn message, st)

/-- The body of the try block of the recipient handler's MEDIATE_GRANT branch:
validate `from`/`to`/`thid`/`routing_did`, correlate against the stored
message with id `thid` (dataStoreGetMessage throws not_found when absent),
and when the stored message's `from`/`to` mirror the grant's `to`/`from`,
add the `didcomm-mediator` service to `to`'s identifier (didManagerAddService
throws when the did is not managed) and attach metadata. All error exits
occur before any mutation. -/
def mediateGrantInner (message : Message) (st : AgentState) :
    Except Err (Message × AgentState) :=
  if ¬ truthy message.from_ then
    .error ⟨"invalid_argument", "MediateGrant received without `from` set"⟩
  else if ¬ truthy message.to_ then
    .error ⟨"invalid_argument", "MediateGrant received without `to` set"⟩
  else if ¬ truthy message.threadId then
    .error ⟨"invalid_argument", "MediateGrant received without `thid` set"⟩
  else
    match message.data.routingDid with
    | none => .error ⟨"invalid_argument", "MediateGrant received with invalid routing_did"⟩
    | some [] => .error ⟨"invalid_argument", "MediateGrant received with invalid routing_did"⟩
    | some (routing0 :: _) =>
        let fromDid := message.from_.getD ""
        let toDid := message.to_.getD ""
        match getMessage st (message.threadId.getD "") with
        | none => .error ⟨"not_found", "Message not found"⟩
        | some prevRequestMsg =>
            if prevRequestMsg.from_ = some toDid ∧ prevRequestMsg.to_ = some fromDid then
              let service : Service :=
                { id := "didcomm-mediator"
                  type := "DIDCommMessaging"
                  serviceEndpoint := .arr [.uriObj routing0] }
              match lookupIdentifier st toDid with
              | none => .error ⟨"not_found", "Identifier not found"⟩
              | some services =>
                  let st' := setServices st toDid (services ++ [service])
                  .ok (message.addMetaData
                    ⟨"DIDCommMessagingServiceAdded", .serviceAdded service⟩, st')
            else .ok (message, st)

/-- `s.serviceEndpoint === from || (Array.isArray(s.serviceEndpoint) &&
s.serviceEndpoint.includes(from))`: a string endpoint compares by string
equality; for an array, `includes` compares each element to the string `from`
with `===`, so an object entry `{uri: ...}` never matches. -/
def endpointMatches (e : ServiceEndpoint) (fromDid : String) : Bool :=
  match e with
  | .str s => s = fromDid
  | .arr entries => entries.any (fun
      | .str t => t = fromDid
      | .uriObj _ => false)

/-- The body of the try block of the recipient handler's MEDIATE_DENY branch:
validate `from`/`to`, fetch `to`'s identifier, find a service whose
serviceEndpoint equals or contains `from`, and remove it when found
(absence of such a service is not an error). -/
def mediateDenyInner (message : Message) (st : AgentState) :
    Except Err AgentState :=
  if ¬ truthy message.from_ then
    .error ⟨"invalid_argument", "MediateGrant received without `from` set"⟩
  else if ¬ truthy message.to_ then
    .error ⟨"invalid_argument", "MediateGrant received without `to` set"⟩
  else
    let fromDid := message.from_.getD ""
    let toDid := message.to_.getD ""
    match lookupIdentifier st toDid with
    | none => .error ⟨"not_found", "Identifier not found"⟩
    | some services =>
        match services.find? (fun s => endpointMatches s.serviceEndpoint fromDid) with
        | none => .ok st
        | some existingService =>
            .ok (setServices st toDid
              (services.filter (fun s => ¬ (s.id = existingService.id))))

/-- CoordinateMediationRecipientMessageHandler.handle: the MEDIATE_GRANT
branch runs its try block and returns the message (errors are caught and
logged, leaving message and state unchanged, since every throw precedes any
mutation); the MEDIATE_DENY branch runs its try block and then falls through
to `super.handle`; any other type falls through to `super.handle`. -/
def recipientHandle (message : Message) (st : AgentState) : Handled × AgentState :=
  if message.type = MEDIATE_GRANT then
    match mediateGrantInner message st with
    | .ok (m', st') => (.handled m', st')
    | .error _ => (.handled message, st)
  else if message.type = MEDIATE_DENY then
    match mediateDenyInner message st with
    | .ok st' => (.passedOn message, st')
    | .error _ => (.passedOn message, st)
  else (.passedOn message, st)

/-- The method names registered in the DataStore plugin constructor's
`this.methods` map (packages/data-store/src/data-store.ts); the
recipient-did registry methods are commented out there. -/
def dataStoreMethods : List String :=
  [ "dataStoreSaveMessage"
  , "dataStoreGetMessage"
  , "dataStoreDeleteMessage"
  , "dataStoreDeleteVerifiableCredential"
  , "dataStoreSaveVerifiableCredential"
  , "dataStoreGetVerifiableCredential"
  , "dataStoreSaveVerifiablePresentation"
  , "dataStoreGetVerifiablePresentation" ]

/-- a thrown error is classified invalid_argument by its taxonomy kind
(error strings of the form `invalid_argument: ...`). -/
def isInvalidArgument (r : Except Err (Message × AgentState)) : Bool :=
  match r with
  | .error e => e.kind = "invalid_argument"
  | .ok _ => false

/-- updaterApply only touches the recipient-did registry of the state. -/
theorem updaterApply_frame (did : String) (st : AgentState) (u : Update) :
    (updaterApply did st u).2.messages = st.messages ∧
    (updaterApply did st u).2.mediations = st.mediations ∧
    (updaterApply did st u).2.identifiers = st.identifiers := by
  cases u with
  | mk rdid action =>
      cases action <;>
        simp only [updaterApply, dataStoreAddRecipientDid, dataStoreRemoveRecipientDid] <;>
        split <;> simp

/-- applyUpdates only touches the recipient-did registry of the state. -/
theorem applyUpdates_frame (did : String) (st : AgentState) (us : List Update) :
    (applyUpdates did st us).2.messages = st.messages ∧
    (applyUpdates did st us).2.mediations = st.mediations ∧
    (applyUpdates did st us).2.identifiers = st.identifiers := by
  induction us generalizing st with
  | nil => simp [applyUpdates]
  | cons u rest ih =>
      have hu := updaterApply_frame did st u
      have hr := ih (updaterApply did st u).2
      simp only [applyUpdates]
      exact ⟨hr.1.trans hu.1, hr.2.1.trans hu.2.1, hr.2.2.trans hu.2.2⟩

/-- C1: contrary to the claim, a well-formed mediate-request from a did whose
stored mediation policy is DENY is still answered with a mediate-grant (the
handler grants all requests and never consults the policy store), and the
stored mediation status is left unchanged (no DENIED record is written);
the only persisted message is the mediate-grant response. -/
theorem mediate_request_ignores_deny_policy
    (pack : DIDCommMessage → String) (freshId now : String)
    (msg : Message) (st : AgentState)
    (hf : truthy msg.from_ = true) (ht : truthy msg.to_ = true)
    (_hpol : lookupPolicy st (msg.from_.getD "") = some MediationPolicy.DENY) :
    ∃ m' st',
      handleMediateRequest pack freshId now msg st = .ok (m', st') ∧
      st'.messages = st.messages ++
        [⟨freshId, MEDIATE_GRANT, msg.to_, msg.from_, some msg.id,
          .routing [msg.to_.getD ""], some now⟩] ∧
      st'.mediations = st.mediations := by
  cases hfm : msg.from_ with
  | none => rw [hfm] at hf; simp [truthy] at hf
  | some f =>
      cases htm : msg.to_ with
      | none => rw [htm] at ht; simp [truthy] at ht
      | some t =>
          rw [hfm] at hf
          rw [htm] at ht
          refine ⟨msg.addMetaData ⟨"ReturnRouteResponse",
              .returnRoute freshId
                (pack (createMediateGrantMessage f t msg.id freshId now)) ENCRYPTED⟩,
            { st with messages := st.messages ++
                [⟨freshId, MEDIATE_GRANT, some t, some f, some msg.id,
                  .routing [t], some now⟩] }, ?_, ?_, ?_⟩ <;>
            simp [handleMediateRequest, hfm, htm, hf, ht, createMediateGrantMessage,
              Message.addMetaData]

/-- C1 witness: a concrete deny-policied requester still receives a grant. -/
theorem mediate_request_ignores_deny_policy_witness :
    ∃ m' st',
      handleMediateRequest (fun _ => "PACKED") "resp-1" "T"
        ⟨MEDIATE_REQUEST, some "did:fake:deny", some "did:fake:mediator",
          "req-1", none, .empty, []⟩
        ⟨[], [], [("did:fake:deny", MediationPolicy.DENY)], [], []⟩ = .ok (m', st') ∧
      st'.messages = [] ++
        [⟨"resp-1", MEDIATE_GRANT, some "did:fake:mediator", some "did:fake:deny",
          some "req-1", .routing ["did:fake:mediator"], some "T"⟩] ∧
      st'.mediations = [] :=
  mediate_request_ignores_deny_policy (fun _ => "PACKED") "resp-1" "T"
    ⟨MEDIATE_REQUEST, some "did:fake:deny", some "did:fake:mediator",
      "req-1", none, .empty, []⟩
    ⟨[], [], [("did:fake:deny", MediationPolicy.DENY)], [], []⟩
    (by decide) (by decide) (by decide)

/-- C2: for a well-formed mediate-request from a did with no stored policy,
the handler builds the mediate-grant exactly as claimed (from = request.to,
to = request.from, thid = request.id, body.routing_did = [mediator did]),
attaches the packed response as ReturnRouteResponse metadata and persists the
response message — but, contrary to the claim's last clause, it persists no
GRANTED mediation record: the mediation status store is left unchanged. -/
theorem mediate_request_grants_but_persists_no_record
    (pack : DIDCommMessage → String) (freshId now : String)
    (msg : Message) (st : AgentState)
    (hf : truthy msg.from_ = true) (ht : truthy msg.to_ = true)
    (_hnopol : lookupPolicy st (msg.from_.getD "") = none) :
    ∃ st',
      handleMediateRequest pack freshId now msg st =
        .ok (msg.addMetaData ⟨"ReturnRouteResponse",
          .returnRoute freshId
            (pack (createMediateGrantMessage (msg.from_.getD "") (msg.to_.getD "")
              msg.id freshId now)) ENCRYPTED⟩, st') ∧
      (createMediateGrantMessage (msg.from_.getD "") (msg.to_.getD "")
          msg.id freshId now).from_ = msg.to_ ∧
      (createMediateGrantMessage (msg.from_.getD "") (msg.to_.getD "")
          msg.id freshId now).to_ = msg.from_ ∧
      (createMediateGrantMessage (msg.from_.getD "") (msg.to_.getD "")
          msg.id freshId now).thid = some msg.id ∧
      (createMediateGrantMessage (msg.from_.getD "") (msg.to_.getD "")
          msg.id freshId now).body = .routing [msg.to_.getD ""] ∧
      st'.messages = st.messages ++
        [⟨freshId, MEDIATE_GRANT, msg.to_, msg.from_, some msg.id,
          .routing [msg.to_.getD ""], some now⟩] ∧
      st'.mediations = st.mediations := by
  cases hfm : msg.from_ with
  | none => rw [hfm] at hf; simp [truthy] at hf
  | some f =>
      cases htm : msg.to_ with
      | none => rw [htm] at ht; simp [truthy] at ht
      | some t =>
          rw [hfm] at hf
          rw [htm] at ht
          refine ⟨{ st with messages := st.messages ++
              [⟨freshId, MEDIATE_GRANT, some t, some f, some msg.id,
                .routing [t], some now⟩] }, ?_, ?_, ?_, ?_, ?_, ?_, ?_⟩ <;>
            simp [handleMediateRequest, hfm, htm, hf, ht, createMediateGrantMessage,
              Message.addMetaData]

/-- C2 witness: a concrete no-policy requester; the grant message has the
claimed shape and the mediation store stays empty. -/
theorem mediate_request_grants_but_persists_no_record_witness :
    ∃ st',
      handleMediateRequest (fun _ => "PACKED") "resp-2" "T"
        ⟨MEDIATE_REQUEST, some "did:fake:rec", some "did:fake:mediator",
          "req-2", none, .empty, []⟩
        ⟨[], [], [], [], []⟩ =
        .ok ((⟨MEDIATE_REQUEST, some "did:fake:rec", some "did:fake:mediator",
            "req-2", none, .empty, []⟩ : Message).addMetaData
          ⟨"ReturnRouteResponse",
            .returnRoute "resp-2"
              ((fun _ => "PACKED") (createMediateGrantMessage "did:fake:rec"
                "did:fake:mediator" "req-2" "resp-2" "T")) ENCRYPTED⟩, st') ∧
      (createMediateGrantMessage "did:fake:rec" "did:fake:mediator"
          "req-2" "resp-2" "T").from_ = some "did:fake:mediator" ∧
      (createMediateGrantMessage "did:fake:rec" "did:fake:mediator"
          "req-2" "resp-2" "T").to_ = some "did:fake:rec" ∧
      (createMediateGrantMessage "did:fake:rec" "did:fake:mediator"
          "req-2" "resp-2" "T").thid = some "req-2" ∧
      (createMediateGrantMessage "did:fake:rec" "did:fake:mediator"
          "req-2" "resp-2" "T").body = .routing ["did:fake:mediator"] ∧
      st'.messages = [] ++
        [⟨"resp-2", MEDIATE_GRANT, some "did:fake:mediator", some "did:fake:rec",
          some "req-2", .routing ["did:fake:mediator"], some "T"⟩] ∧
      st'.mediations = [] :=
  mediate_request_grants_but_persists_no_record (fun _ => "PACKED") "resp-2" "T"
    ⟨MEDIATE_REQUEST, some "did:fake:rec", some "did:fake:mediator",
      "req-2", none, .empty, []⟩
    ⟨[], [], [], [], []⟩ (by decide) (by decide) (by decide)

/-- C3: contrary to the claim, handleRecipientUpdate builds no
recipient-update-response: on a well-formed recipient-update from a managed
recipient it returns the inbound message itself unchanged (no metadata
attached, in particular no ReturnRouteResponse), persists no message, and the
accumulated per-update results are discarded. -/
theorem recipient_update_builds_no_response (msg : Message) (st : AgentState)
    (hf : truthy msg.from_ = true) (ht : truthy msg.to_ = true)
    (hup : msg.data.updatesOf ≠ [])
    (hid : lookupIdentifier st (msg.from_.getD "") ≠ none) :
    ∃ st',
      handleRecipientUpdate msg st = .ok (msg, st') ∧
      st'.messages = st.messages ∧
      st'.identifiers = st.identifiers := by
  rcases hlook : lookupIdentifier st (msg.from_.getD "") with _ | services
  · exact absurd hlook hid
  · refine ⟨(applyUpdates (msg.from_.getD "") st msg.data.updatesOf).2, ?_, ?_, ?_⟩
    · simp [handleRecipientUpdate, hf, ht, hup, hlook, List.isEmpty_iff]
    · exact (applyUpdates_frame _ _ _).1
    · exact (applyUpdates_frame _ _ _).2.2

/-- C3 witness: a concrete one-element add update; the handler returns the
very same message with nothing persisted. -/
theorem recipient_update_builds_no_response_witness :
    ∃ st',
      handleRecipientUpdate
        ⟨RECIPIENT_UPDATE, some "did:fake:rec", some "did:fake:med", "upd-1", none,
          .updates [⟨"did:fake:recip-00", .add⟩], []⟩
        ⟨[], [], [], [], [("did:fake:rec", [])]⟩ =
        .ok (⟨RECIPIENT_UPDATE, some "did:fake:rec", some "did:fake:med", "upd-1", none,
          .updates [⟨"did:fake:recip-00", .add⟩], []⟩, st') ∧
      st'.messages = [] ∧
      st'.identifiers = [("did:fake:rec", [])] :=
  recipient_update_builds_no_response
    ⟨RECIPIENT_UPDATE, some "did:fake:rec", some "did:fake:med", "upd-1", none,
      .updates [⟨"did:fake:recip-00", .add⟩], []⟩
    ⟨[], [], [], [], [("did:fake:rec", [])]⟩
    (by decide) (by decide) (by decide) (by decide)

/-- C4: contrary to the claim, the mediator handler has no recipient-query
operation: a message of the recipient query type is passed through to the
next handler unchanged and the agent state is untouched — no body.dids
response is produced. -/
theorem recipient_query_passed_through
    (pack : DIDCommMessage → String) (freshId now : String)
    (msg : Message) (st : AgentState)
    (hty : msg.type = RECIPIENT_QUERY) :
    mediatorHandle pack freshId now msg st = (.passedOn msg, st) := by
  simp [mediatorHandle, hty, RECIPIENT_QUERY, MEDIATE_REQUEST, RECIPIENT_UPDATE]

/-- C4 witness: a concrete recipient-query from a did with registered
recipient dids is passed through with the state unchanged. -/
theorem recipient_query_passed_through_witness :
    mediatorHandle (fun _ => "PACKED") "q-resp" "T"
      ⟨RECIPIENT_QUERY, some "did:fake:rec", some "did:fake:med", "q-1", none, .empty, []⟩
      ⟨[], [], [], [("did:fake:rec", "did:fake:recip-00"),
        ("did:fake:rec", "did:fake:recip-01")], [("did:fake:rec", [])]⟩ =
      (.passedOn ⟨RECIPIENT_QUERY, some "did:fake:rec", some "did:fake:med",
        "q-1", none, .empty, []⟩,
       ⟨[], [], [], [("did:fake:rec", "did:fake:recip-00"),
        ("did:fake:rec", "did:fake:recip-01")], [("did:fake:rec", [])]⟩) :=
  recipient_query_passed_through (fun _ => "PACKED") "q-resp" "T"
    ⟨RECIPIENT_QUERY, some "did:fake:rec", some "did:fake:med", "q-1", none, .empty, []⟩
    ⟨[], [], [], [("did:fake:rec", "did:fake:recip-00"),
      ("did:fake:rec", "did:fake:recip-01")], [("did:fake:rec", [])]⟩ rfl

/-- C5: a mediate-grant whose thid matches no stored message, or whose
matching stored message is not a request this agent sent to this exact
counterparty (stored from = grant's to and stored to = grant's from), leaves
every identifier's DID-document services unchanged: no service is added. -/
theorem uncorrelated_grant_leaves_identifiers (msg : Message) (st : AgentState)
    (hty : msg.type = MEDIATE_GRANT)
    (h : ∀ prev, getMessage st (msg.threadId.getD "") = some prev →
      ¬ (prev.from_ = some (msg.to_.getD "") ∧ prev.to_ = some (msg.from_.getD ""))) :
    (recipientHandle msg st).2.identifiers = st.identifiers := by
  have hinner : ∀ r st', mediateGrantInner msg st = .ok (r, st') →
      st'.identifiers = st.identifiers := by
    intro r st' hok
    rcases hprev : getMessage st (msg.threadId.getD "") with _ | prev
    · unfold mediateGrantInner at hok
      simp only [hprev] at hok
      repeat' split at hok <;> simp_all
    · have hcorr := h prev hprev
      unfold mediateGrantInner at hok
      simp only [hprev] at hok
      repeat' split at hok <;> simp_all
  unfold recipientHandle
  rw [hty]
  simp only [if_pos rfl]
  rcases hg : mediateGrantInner msg st with e | ⟨m', st'⟩
  · simp
  · simpa using hinner m' st' hg

/-- C5 witness: a forged grant whose thid matches nothing stored adds no
service. -/
theorem uncorrelated_grant_leaves_identifiers_witness :
    (recipientHandle
      ⟨MEDIATE_GRANT, some "did:fake:med", some "did:fake:rec", "g-1", some "unknown-thid",
        .routing ["did:fake:med"], []⟩
      ⟨[], [], [], [], [("did:fake:rec", [])]⟩).2.identifiers =
      [("did:fake:rec", [])] :=
  uncorrelated_grant_leaves_identifiers
    ⟨MEDIATE_GRANT, some "did:fake:med", some "did:fake:rec", "g-1", some "unknown-thid",
      .routing ["did:fake:med"], []⟩
    ⟨[], [], [], [], [("did:fake:rec", [])]⟩ rfl
    (by intro prev hprev; simp [getMessage] at hprev)

/-- initial state for the grant-then-deny scenario: the recipient is managed
with no services and its prior mediate-request to the mediator is stored. -/
def grantDenyStartState : AgentState :=
  ⟨[⟨"req-9", MEDIATE_REQUEST, some "did:fake:rec", some "did:fake:med", none, .empty, none⟩],
   [], [], [],
   [("did:fake:rec",
     [⟨"msg1", "DIDCommMessaging", .str "http://localhost:3000/messaging"⟩])]⟩

/-- a correlated mediate-grant from the mediator replying to the stored request. -/
def correlatedGrantMsg : Message :=
  ⟨MEDIATE_GRANT, some "did:fake:med", some "did:fake:rec", "g-9", some "req-9",
   .routing ["did:fake:med"], []⟩

/-- a subsequent mediate-deny from the same mediator to the same recipient. -/
def subsequentDenyMsg : Message :=
  ⟨MEDIATE_DENY, some "did:fake:med", some "did:fake:rec", "d-9", none, .null, []⟩

/-- C6: on the concrete request → grant → deny scenario the code diverges from
the claim twice. The correlated grant stores the service under the raw id
"didcomm-mediator" (not "<recipientDid>#didcomm-mediator") with
serviceEndpoint [\x7buri: mediatorDid\x7d]; and the subsequent mediate-deny from
that same mediator removes nothing: its lookup compares each serviceEndpoint
entry to the mediator DID string with JS `===`, which never matches the
stored object entry, so the whole state is left unchanged and the service
survives. Only processing a deny with no matching service being error-free
(the idempotence part) agrees with the claim. -/
theorem grant_then_deny_leaves_service_installed :
    lookupIdentifier (recipientHandle correlatedGrantMsg grantDenyStartState).2
        "did:fake:rec" =
      some [⟨"msg1", "DIDCommMessaging", .str "http://localhost:3000/messaging"⟩,
        ⟨"didcomm-mediator", "DIDCommMessaging", .arr [.uriObj "did:fake:med"]⟩] ∧
    (recipientHandle subsequentDenyMsg
        (recipientHandle correlatedGrantMsg grantDenyStartState).2).2 =
      (recipientHandle correlatedGrantMsg grantDenyStartState).2 := by
  constructor <;> decide

/-- C7: recipient-update actions are reported as claimed: adding an
unregistered (did, recipient_did) pair yields success, adding it again yields
no_change; removing the then-registered pair yields success, removing it
again yields no_change. The update application is the source's `updater`;
the registry operations are modelled from the spec's store-port contract. -/
theorem recipient_update_add_remove_idempotence (st : AgentState) (did rdid : String)
    (h : (did, rdid) ∉ st.recipientDids) :
    ((updaterApply did st ⟨rdid, .add⟩).1.result = .success) ∧
    ((updaterApply did (updaterApply did st ⟨rdid, .add⟩).2 ⟨rdid, .add⟩).1.result
      = .no_change) ∧
    ((updaterApply did (updaterApply did st ⟨rdid, .add⟩).2 ⟨rdid, .remove⟩).1.result
      = .success) ∧
    ((updaterApply did
        (updaterApply did (updaterApply did st ⟨rdid, .add⟩).2 ⟨rdid, .remove⟩).2
        ⟨rdid, .remove⟩).1.result = .no_change) := by
  refine ⟨?_, ?_, ?_, ?_⟩ <;>
    simp [updaterApply, dataStoreAddRecipientDid, dataStoreRemoveRecipientDid, h,
      List.mem_filter]

/-- C7 witness: concrete add/add/remove/remove sequence on an empty registry. -/
theorem recipient_update_add_remove_idempotence_witness :
    ((updaterApply "did:fake:rec" ⟨[], [], [], [], []⟩
        ⟨"did:fake:recip-00", .add⟩).1.result = .success) ∧
    ((updaterApply "did:fake:rec"
        (updaterApply "did:fake:rec" ⟨[], [], [], [], []⟩
          ⟨"did:fake:recip-00", .add⟩).2
        ⟨"did:fake:recip-00", .add⟩).1.result = .no_change) ∧
    ((updaterApply "did:fake:rec"
        (updaterApply "did:fake:rec" ⟨[], [], [], [], []⟩
          ⟨"did:fake:recip-00", .add⟩).2
        ⟨"did:fake:recip-00", .remove⟩).1.result = .success) ∧
    ((updaterApply "did:fake:rec"
        (updaterApply "did:fake:rec"
          (updaterApply "did:fake:rec" ⟨[], [], [], [], []⟩
            ⟨"did:fake:recip-00", .add⟩).2
          ⟨"did:fake:recip-00", .remove⟩).2
        ⟨"did:fake:recip-00", .remove⟩).1.result = .no_change) :=
  recipient_update_add_remove_idempotence ⟨[], [], [], [], []⟩
    "did:fake:rec" "did:fake:recip-00" (by decide)

/-- C8: handleMediateRequest raises an invalid_argument error exactly when
`from` or `to` is absent, and handleRecipientUpdate raises an
invalid_argument error exactly when `from` or `to` is absent or body.updates
is empty; whenever those preconditions hold, no invalid_argument error is
raised (any remaining failure is the not_found taxonomy). -/
theorem invalid_argument_iff_preconditions_violated
    (pack : DIDCommMessage → String) (freshId now : String)
    (msg : Message) (st : AgentState) :
    (isInvalidArgument (handleMediateRequest pack freshId now msg st) = true ↔
      (truthy msg.from_ = false ∨ truthy msg.to_ = false)) ∧
    (isInvalidArgument (handleRecipientUpdate msg st) = true ↔
      (truthy msg.from_ = false ∨ truthy msg.to_ = false ∨
        msg.data.updatesOf = [])) := by
  constructor
  · by_cases hf : truthy msg.from_ <;> by_cases ht : truthy msg.to_ <;>
      simp [handleMediateRequest, isInvalidArgument, hf, ht]
  · by_cases hf : truthy msg.from_ <;> by_cases ht : truthy msg.to_ <;>
      by_cases hup : msg.data.updatesOf = [] <;>
      rcases hlook : lookupIdentifier st (msg.from_.getD "") with _ | services <;>
      simp [handleRecipientUpdate, isInvalidArgument, hf, ht, hup, hlook,
        List.isEmpty_iff]

/-- C8 witness: the invalid_argument characterization instantiated at a
concrete well-formed recipient-update message and empty state. -/
theorem invalid_argument_iff_preconditions_violated_witness :
    (isInvalidArgument (handleMediateRequest (fun _ => "PACKED") "w-resp" "T"
        ⟨RECIPIENT_UPDATE, some "did:fake:rec", some "did:fake:med", "w-1", none,
          .updates [⟨"did:fake:recip-00", .add⟩], []⟩
        ⟨[], [], [], [], []⟩) = true ↔
      (truthy (some "did:fake:rec") = false ∨ truthy (some "did:fake:med") = false)) ∧
    (isInvalidArgument (handleRecipientUpdate
        ⟨RECIPIENT_UPDATE, some "did:fake:rec", some "did:fake:med", "w-1", none,
          .updates [⟨"did:fake:recip-00", .add⟩], []⟩
        ⟨[], [], [], [], []⟩) = true ↔
      (truthy (some "did:fake:rec") = false ∨ truthy (some "did:fake:med") = false ∨
        (Body.updates [⟨"did:fake:recip-00", .add⟩]).updatesOf = [])) :=
  invalid_argument_iff_preconditions_violated (fun _ => "PACKED") "w-resp" "T"
    ⟨RECIPIENT_UPDATE, some "did:fake:rec", some "did:fake:med", "w-1", none,
      .updates [⟨"did:fake:recip-00", .add⟩], []⟩
    ⟨[], [], [], [], []⟩

/-- C9: a validation failure inside a role handler never escapes the public
handle method: whenever the type-matched inner processing raises an error,
the mediator handler forwards the very same message down the chain with the
state untouched, and the recipient handler likewise returns (grant branch) or
forwards (deny branch) the unmodified message with the state untouched — so
one message's failure cannot abort the handling of other messages. -/
theorem validation_failure_contained
    (pack : DIDCommMessage → String) (freshId now : String)
    (msg : Message) (st : AgentState) :
    (∀ e, msg.type = MEDIATE_REQUEST →
      handleMediateRequest pack freshId now msg st = .error e →
      mediatorHandle pack freshId now msg st = (.passedOn msg, st)) ∧
    (∀ e, msg.type = RECIPIENT_UPDATE →
      handleRecipientUpdate msg st = .error e →
      mediatorHandle pack freshId now msg st = (.passedOn msg, st)) ∧
    (∀ e, msg.type = MEDIATE_GRANT →
      mediateGrantInner msg st = .error e →
      recipientHandle msg st = (.handled msg, st)) ∧
    (∀ e, msg.type = MEDIATE_DENY →
      mediateDenyInner msg st = .error e →
      recipientHandle msg st = (.passedOn msg, st)) := by
  refine ⟨?_, ?_, ?_, ?_⟩ <;> intro e hty herr <;>
    simp [mediatorHandle, recipientHandle, hty, herr,
      MEDIATE_REQUEST, RECIPIENT_UPDATE, MEDIATE_GRANT, MEDIATE_DENY]

/-- C9 witness: a mediate-request with no `from` is forwarded unchanged and a
mediate-grant with no `thid` is returned unchanged, neither erroring. -/
theorem validation_failure_contained_witness :
    mediatorHandle (fun _ => "PACKED") "id-1" "T"
        ⟨MEDIATE_REQUEST, none, some "did:fake:med", "bad-1", none, .empty, []⟩
        ⟨[], [], [], [], []⟩ =
      (.passedOn ⟨MEDIATE_REQUEST, none, some "did:fake:med", "bad-1", none, .empty, []⟩,
        ⟨[], [], [], [], []⟩) ∧
    recipientHandle
        ⟨MEDIATE_GRANT, some "did:fake:med", some "did:fake:rec", "bad-2", none,
          .routing ["did:fake:med"], []⟩
        ⟨[], [], [], [], []⟩ =
      (.handled ⟨MEDIATE_GRANT, some "did:fake:med", some "did:fake:rec", "bad-2", none,
          .routing ["did:fake:med"], []⟩,
        ⟨[], [], [], [], []⟩) :=
  ⟨(validation_failure_contained (fun _ => "PACKED") "id-1" "T"
      ⟨MEDIATE_REQUEST, none, some "did:fake:med", "bad-1", none, .empty, []⟩
      ⟨[], [], [], [], []⟩).1
      ⟨"invalid_argument", "MediateRequest received without `from` set"⟩ rfl (by decide),
   (validation_failure_contained (fun _ => "PACKED") "id-1" "T"
      ⟨MEDIATE_GRANT, some "did:fake:med", some "did:fake:rec", "bad-2", none,
        .routing ["did:fake:med"], []⟩
      ⟨[], [], [], [], []⟩).2.2.1
      ⟨"invalid_argument", "MediateGrant received without `thid` set"⟩ rfl (by decide)⟩

/-- C10: the DataStore plugin constructor registers exactly the eight
message/credential/presentation methods, and none of
dataStoreAddRecipientDid, dataStoreRemoveRecipientDid,
dataStoreListRecipientDids is registered. -/
theorem dataStore_methods_exclude_recipient_did_registry :
    dataStoreMethods.length = 8 ∧
    "dataStoreSaveMessage" ∈ dataStoreMethods ∧
    "dataStoreGetMessage" ∈ dataStoreMethods ∧
    "dataStoreDeleteMessage" ∈ dataStoreMethods ∧
    "dataStoreDeleteVerifiableCredential" ∈ dataStoreMethods ∧
    "dataStoreSaveVerifiableCredential" ∈ dataStoreMethods ∧
    "dataStoreGetVerifiableCredential" ∈ dataStoreMethods ∧
    "dataStoreSaveVerifiablePresentation" ∈ dataStoreMethods ∧
    "dataStoreGetVerifiablePresentation" ∈ dataStoreMethods ∧
    "dataStoreAddRecipientDid" ∉ dataStoreMethods ∧
    "dataStoreRemoveRecipientDid" ∉ dataStoreMethods ∧
    "dataStoreListRecipientDids" ∉ dataStoreMethods := by
  decide

end Veramo
